import Mathlib

/-!
Verification of the spack-abi extension's core logic against its
natural-language specification.

The Lean definitions below are a shallow embedding of the Python sources:

* `src/abi/abigail.py`   — `DiffExitCode`, `abidw` (up to the external run)
* `src/abi/diff_product.py` — `AbiDiffType`, `return_code_to_diff_type`,
  `cross_product_self`, the sweep loop of `DiffProductCmd.cmd`
* `src/abi/abixml.py`    — the ABI corpus model, its XML parser and
  `to_suppression` renderers, `ABI.from_binaries`
* `src/abi/suppress.py`  — `suppression_for_binaries_from_header` (the pure
  reconciliation core, after the two effectful input acquisitions)
* `src/abi/parse_headers.py` — preprocessed-header block splitting and the
  structural declaration parser

Python machine behaviour is made explicit: functions that can raise are
embedded in `Except`/`Option`, CPython `str.split`-style operations are
modelled over the string's character list, and `int` attribute values are
parsed with explicit failure.
-/

namespace SpackAbi

/-! ## src/abi/abigail.py : DiffExitCode -/

namespace DiffExitCode

def OK : Nat := 0
def DIFF_ERROR : Nat := 1
def USAGE_ERROR : Nat := 2
def ABI_CHANGE : Nat := 4
def INCOMPATIBLE_CHANGE : Nat := 8

end DiffExitCode

/-! ## src/abi/diff_product.py : classifier and cross product -/

/-- The four compatibility verdicts of `diff_product.py`. -/
inductive AbiDiffType : Type where
  | NONE : AbiDiffType
  | HARMLESS : AbiDiffType
  | HARMFUL : AbiDiffType
  | ERROR : AbiDiffType
deriving DecidableEq, Repr

/-- `return_code_to_diff_type` from `src/abi/diff_product.py` lines 26-35,
with the exit status as a natural number and `&` as `Nat.land`. -/
def return_code_to_diff_type (rc : Nat) : AbiDiffType :=
  if rc = 0 then AbiDiffType.NONE
  else if rc &&& DiffExitCode.ABI_CHANGE = DiffExitCode.ABI_CHANGE then
    if rc &&& DiffExitCode.INCOMPATIBLE_CHANGE = 0 then AbiDiffType.HARMLESS
    else AbiDiffType.HARMFUL
  else AbiDiffType.ERROR

/-- `cross_product_self` from `src/abi/diff_product.py` lines 38-48: the
nested `enumerate` comprehension keeping pairs at distinct indices. -/
def cross_product_self {T : Type} (lst : List T) : List (T × T) :=
  lst.enum.flatMap fun p =>
    lst.enum.filterMap fun q => if p.1 ≠ q.1 then some (p.2, q.2) else none

lemma land_four_iff (rc : Nat) : rc &&& 4 = 4 ↔ rc.testBit 2 := by
  have h := Nat.and_two_pow rc 2
  norm_num at h
  rw [h]
  cases hb : rc.testBit 2 <;> simp

lemma land_eight_iff (rc : Nat) : rc &&& 8 = 0 ↔ rc.testBit 3 = false := by
  have h := Nat.and_two_pow rc 3
  norm_num at h
  rw [h]
  cases hb : rc.testBit 3 <;> simp

lemma return_code_to_diff_type_eq (rc : Nat) :
    return_code_to_diff_type rc =
      if rc = 0 then AbiDiffType.NONE
      else if rc.testBit 2 then
        (if rc.testBit 3 then AbiDiffType.HARMFUL else AbiDiffType.HARMLESS)
      else AbiDiffType.ERROR := by
  unfold return_code_to_diff_type
  unfold DiffExitCode.ABI_CHANGE DiffExitCode.INCOMPATIBLE_CHANGE
  by_cases h0 : rc = 0
  · simp [h0]
  · by_cases h2 : rc.testBit 2
    · by_cases h3 : rc.testBit 3
      · have hl4 : rc &&& 4 = 4 := (land_four_iff rc).mpr h2
        have hl8 : ¬ (rc &&& 8 = 0) := by
          intro hc
          rw [(land_eight_iff rc)] at hc
          rw [h3] at hc
          exact Bool.noConfusion hc
        simp [h0, hl4, hl8, h2, h3]
      · have hl4 : rc &&& 4 = 4 := (land_four_iff rc).mpr h2
        have hl8 : rc &&& 8 = 0 := (land_eight_iff rc).mpr (by simpa using h3)
        simp [h0, hl4, hl8, h2, h3]
    · have hl4 : ¬ (rc &&& 4 = 4) := by
        intro hc
        exact h2 ((land_four_iff rc).mp hc)
      simp [h0, hl4, h2]

/-- C1: For every exit code of the comparison tool, the classifier returns
exactly one of the four verdicts by the claimed precedence: exit code 0
yields `NONE` (NoChange); otherwise, if bit 2 (ABI-changed, value 4) is set
the verdict is `HARMFUL` (HarmfulChange) when bit 3 (incompatible, value 8)
is also set and `HARMLESS` (HarmlessChange) when it is not; otherwise the
verdict is `ERROR` (UsageError).  In particular 12 ↦ HARMFUL, 4 ↦ HARMLESS,
2 ↦ ERROR, 0 ↦ NONE, and an exit code with the ABI-changed bit set never
yields `NONE` or `ERROR`. -/
theorem diff_classifier_totality :
    (∀ rc : Nat, return_code_to_diff_type rc =
      if rc = 0 then AbiDiffType.NONE
      else if rc.testBit 2 then
        (if rc.testBit 3 then AbiDiffType.HARMFUL else AbiDiffType.HARMLESS)
      else AbiDiffType.ERROR) ∧
    return_code_to_diff_type 0 = AbiDiffType.NONE ∧
    return_code_to_diff_type 12 = AbiDiffType.HARMFUL ∧
    return_code_to_diff_type 4 = AbiDiffType.HARMLESS ∧
    return_code_to_diff_type 2 = AbiDiffType.ERROR ∧
    (∀ rc : Nat, return_code_to_diff_type (rc ||| 4) ≠ AbiDiffType.NONE ∧
      return_code_to_diff_type (rc ||| 4) ≠ AbiDiffType.ERROR) := by
  refine ⟨return_code_to_diff_type_eq, by decide, by decide, by decide, by decide, ?_⟩
  intro rc
  have hbit : (rc ||| 4).testBit 2 = true := by
    rw [Nat.testBit_or]
    simp
    exact Or.inr (by decide)
  have hne : rc ||| 4 ≠ 0 := by
    intro hc
    rw [hc] at hbit
    simp [Nat.zero_testBit] at hbit
  rw [return_code_to_diff_type_eq]
  simp only [hne, if_false, hbit, if_true]
  cases (rc ||| 4).testBit 3 <;> simp

lemma length_filterMap_ite {α β : Type} (l : List α) (p : α → Prop)
    [DecidablePred p] (f : α → β) :
    (l.filterMap fun a => if p a then some (f a) else none).length =
      l.countP (fun a => decide (p a)) := by
  induction l with
  | nil => rfl
  | cons a t ih =>
    by_cases h : p a <;> simp [List.filterMap_cons, h, List.countP_cons, ih]

lemma countP_range_ne (n i : Nat) (h : i < n) :
    (List.range n).countP (fun j => decide (i ≠ j)) = n - 1 := by
  induction n with
  | zero => omega
  | succ m ih =>
    rw [List.range_succ, List.countP_append]
    rcases Nat.lt_or_ge i m with hm | hm
    · rw [ih hm]
      have hne : i ≠ m := by omega
      simp [hne]
      omega
    · have him : i = m := by omega
      subst him
      have hc : (List.range i).countP (fun j => decide (i ≠ j)) =
          (List.range i).length := by
        apply List.countP_eq_length.mpr
        intro a ha
        simp at ha ⊢
        omega
      rw [hc]
      simp

lemma cross_product_self_length {T : Type} (lst : List T) :
    (cross_product_self lst).length = lst.length * (lst.length - 1) := by
  unfold cross_product_self
  rw [List.length_flatMap]
  have hinner : ∀ a ∈ lst.enum,
      (lst.enum.filterMap fun q =>
        if a.1 ≠ q.1 then some (a.2, q.2) else none).length =
        lst.length - 1 := by
    intro a ha
    have hai : a.1 < lst.length := by
      rw [List.mk_mem_enum_iff_getElem?] at ha
      by_contra hcon
      rw [List.getElem?_eq_none (by omega)] at ha
      exact Option.noConfusion ha
    rw [length_filterMap_ite lst.enum (fun q => a.1 ≠ q.1) (fun q => (a.2, q.2))]
    have hmap : lst.enum.countP (fun q => decide (a.1 ≠ q.1)) =
        (lst.enum.map Prod.fst).countP (fun j => decide (a.1 ≠ j)) := by
      rw [List.countP_map]
      rfl
    rw [hmap, List.enum_map_fst, countP_range_ne lst.length a.1 hai]
  simp only [Function.comp_def]
  rw [List.map_congr_left hinner, List.map_const', List.sum_replicate,
    List.enum_length, smul_eq_mul]

lemma cross_product_self_mem_iff {T : Type} (lst : List T) (p : T × T) :
    p ∈ cross_product_self lst ↔
      ∃ i j : Fin lst.length, i.1 ≠ j.1 ∧ p = (lst.get i, lst.get j) := by
  unfold cross_product_self
  rw [List.mem_flatMap]
  constructor
  · rintro ⟨a, ha, hinner⟩
    rw [List.mem_filterMap] at hinner
    obtain ⟨b, hb, heq⟩ := hinner
    by_cases hab : a.1 ≠ b.1
    · rw [if_pos hab] at heq
      rw [List.mk_mem_enum_iff_getElem?] at ha hb
      have hai : a.1 < lst.length := by
        by_contra hcon
        rw [List.getElem?_eq_none (by omega)] at ha
        exact Option.noConfusion ha
      have hbi : b.1 < lst.length := by
        by_contra hcon
        rw [List.getElem?_eq_none (by omega)] at hb
        exact Option.noConfusion hb
      refine ⟨⟨a.1, hai⟩, ⟨b.1, hbi⟩, hab, ?_⟩
      rw [List.getElem?_eq_getElem hai] at ha
      rw [List.getElem?_eq_getElem hbi] at hb
      have ha2 : a.2 = lst.get ⟨a.1, hai⟩ := by
        have := Option.some.inj ha
        simp [List.get_eq_getElem, this]
      have hb2 : b.2 = lst.get ⟨b.1, hbi⟩ := by
        have := Option.some.inj hb
        simp [List.get_eq_getElem, this]
      rw [← ha2, ← hb2]
      exact (Option.some.inj heq).symm
    · rw [if_neg hab] at heq
      exact Option.noConfusion heq
  · rintro ⟨i, j, hij, hp⟩
    refine ⟨(i.1, lst.get i), ?_, ?_⟩
    · rw [List.mk_mem_enum_iff_getElem?]
      simp [List.getElem?_eq_getElem i.2, List.get_eq_getElem]
    · rw [List.mem_filterMap]
      refine ⟨(j.1, lst.get j), ?_, ?_⟩
      · rw [List.mk_mem_enum_iff_getElem?]
        simp [List.getElem?_eq_getElem j.2, List.get_eq_getElem]
      · rw [if_pos hij, hp]

/-- C3: for every input list of `n` entries, `cross_product_self` builds
exactly `n·(n-1)` ordered pairs — every pair of elements at two distinct
indices, in both orders; every produced pair comes from two distinct
positions; and for duplicate-free input no entry is ever paired with
itself. -/
theorem cross_product_cardinality {T : Type} (lst : List T) :
    (cross_product_self lst).length = lst.length * (lst.length - 1) ∧
    (∀ i j : Fin lst.length, i.1 ≠ j.1 →
      (lst.get i, lst.get j) ∈ cross_product_self lst) ∧
    (∀ p ∈ cross_product_self lst,
      ∃ i j : Fin lst.length, i.1 ≠ j.1 ∧ p = (lst.get i, lst.get j)) ∧
    (lst.Nodup → ∀ x : T, (x, x) ∉ cross_product_self lst) := by
  refine ⟨cross_product_self_length lst, ?_, ?_, ?_⟩
  · intro i j hij
    exact (cross_product_self_mem_iff lst (lst.get i, lst.get j)).mpr
      ⟨i, j, hij, rfl⟩
  · intro p hp
    exact (cross_product_self_mem_iff lst p).mp hp
  · intro hnd x hx
    obtain ⟨i, j, hij, hp⟩ := (cross_product_self_mem_iff lst (x, x)).mp hx
    have hxi : x = lst.get i := congrArg Prod.fst hp
    have hxj : x = lst.get j := congrArg Prod.snd hp
    have : i = j := hnd.get_inj_iff.mp (hxi ▸ hxj)
    exact hij (congrArg Fin.val this)

/-- Closed witness for `cross_product_cardinality`: the theorem applied to
the concrete list `[10, 20]`. -/
theorem cross_product_cardinality_witness :
    (cross_product_self [10, 20]).length = 2 * (2 - 1) ∧
    ((10 : Nat), (20 : Nat)) ∈ cross_product_self [10, 20] ∧
    ((10 : Nat), (10 : Nat)) ∉ cross_product_self [10, 20] ∧
    (∃ i j : Fin ([10, 20] : List Nat).length, i.1 ≠ j.1 ∧
      ((10 : Nat), (20 : Nat)) = (([10, 20] : List Nat).get i,
        ([10, 20] : List Nat).get j)) := by
  refine ⟨(cross_product_cardinality [10, 20]).1, ?_, ?_, ?_⟩
  · exact (cross_product_cardinality [10, 20]).2.1 ⟨0, by decide⟩ ⟨1, by decide⟩
      (by decide)
  · exact (cross_product_cardinality [10, 20]).2.2.2 (by decide) 10
  · exact (cross_product_cardinality [10, 20]).2.2.1 ((10 : Nat), (20 : Nat))
      (by decide)

/-! ## src/abi/parse_headers.py : header-surface symbol model -/

namespace ParseHeaders

/-- `SymbolType` from `src/abi/parse_headers.py` lines 23-29. -/
inductive SymbolType : Type where
  | TYPEDEF : SymbolType
  | FUNDEF : SymbolType
  | PTRDEF : SymbolType
  | EXTERNDEF : SymbolType
  | STRUCTDEF : SymbolType
  | ENUMDEF : SymbolType
deriving DecidableEq, Repr

/-- The header-surface `Symbol` dataclass from `src/abi/parse_headers.py`
lines 31-34. -/
structure Symbol : Type where
  stype : SymbolType
  symbol : String
deriving DecidableEq, Repr

end ParseHeaders

/-! ## src/abi/abixml.py : the ABI corpus model -/

namespace Abixml

/-- The ELF `Symbol` dataclass of `src/abi/abixml.py` lines 53-60
(`Path` values are kept as plain strings throughout the embedding). -/
structure Symbol : Type where
  name : String
  size : Int
  typ : String
  binding : String
  visibility : String
  defined : Bool
deriving DecidableEq, Repr

/-- `VarDecl` dataclass, `src/abi/abixml.py` lines 77-82. -/
structure VarDecl : Type where
  name : String
  type_id : String
  visibility : String
  filepath : Option String
deriving DecidableEq, Repr

/-- `TypeDecl` dataclass, `src/abi/abixml.py` lines 100-105. -/
structure TypeDecl : Type where
  name : String
  size : Option Int
  hash : Option String
  id : String
deriving DecidableEq, Repr

/-- `Parameter` dataclass, `src/abi/abixml.py` lines 124-128. -/
structure Parameter : Type where
  type_id : Option String
  name : Option String
  is_variadic : Bool
deriving DecidableEq, Repr

/-- `FunctionDecl` dataclass, `src/abi/abixml.py` lines 141-147. -/
structure FunctionDecl : Type where
  name : String
  mangled_name : Option String
  filepath : Option String
  parameters : List Parameter
  return_type_id : String
deriving DecidableEq, Repr

/-- The `Union[FunctionDecl, VarDecl]` stored in a `DataMember`
(`src/abi/abixml.py` line 180), as an explicit two-variant sum. -/
inductive MemberDecl : Type where
  | fn : FunctionDecl → MemberDecl
  | var : VarDecl → MemberDecl
deriving DecidableEq, Repr

/-- `DataMember` dataclass, `src/abi/abixml.py` lines 176-180. -/
structure DataMember : Type where
  access : String
  layout_offset : Int
  decl : MemberDecl
deriving DecidableEq, Repr

/-- `ClassDecl` dataclass, `src/abi/abixml.py` lines 200-209. -/
structure ClassDecl : Type where
  name : String
  is_struct : Bool
  visibility : String
  size : Option Int
  filepath : Option String
  hash : Option String
  id : String
  data_members : List DataMember
deriving DecidableEq, Repr

/-- `TypedefDecl` dataclass, `src/abi/abixml.py` lines 246-251. -/
structure TypedefDecl : Type where
  name : String
  member_id : String
  type_id : String
  filepath : String
deriving DecidableEq, Repr

/-- `ABI` dataclass, `src/abi/abixml.py` lines 275-287. -/
structure ABI : Type where
  path : String
  fun_symbols : List Symbol
  var_symbols : List Symbol
  type_decls : List TypeDecl
  typedef_decls : List TypedefDecl
  class_decls : List ClassDecl
  fun_decls : List FunctionDecl
  var_decls : List VarDecl
deriving DecidableEq, Repr

/-- `FunctionDecl.to_suppression`, `src/abi/abixml.py` lines 167-173:
`"\n  ".join(["[suppress_function]", f"name = {self.name}"])`. -/
def FunctionDecl.to_suppression (self : FunctionDecl) (file : String) : String :=
  String.intercalate "\n  " ["[suppress_function]", "name = " ++ self.name]

/-- `ClassDecl.to_suppression`, `src/abi/abixml.py` lines 238-244. -/
def ClassDecl.to_suppression (self : ClassDecl) (file : String) : String :=
  String.intercalate "\n  " ["[suppress_type]", "name = " ++ self.name]

/-- `TypedefDecl.to_suppression`, `src/abi/abixml.py` lines 266-272. -/
def TypedefDecl.to_suppression (self : TypedefDecl) (file : String) : String :=
  String.intercalate "\n  " ["[suppress_type]", "name = " ++ self.name]

/-- `ABI.type_and_function_names`, `src/abi/abixml.py` lines 335-338. -/
def ABI.type_and_function_names (self : ABI) : List String × List String :=
  (self.class_decls.map (fun cd => cd.name) ++
     self.typedef_decls.map (fun td => td.name),
   self.fun_decls.map (fun fd => fd.name))

end Abixml

/-- C7: for any parsed ABI corpus, the derived query's type names are
exactly the names of the corpus's `ClassDecl` entries together with its
`TypedefDecl` entries, and its function names are exactly the names of its
`FunctionDecl` entries — stated both as a multiplicity identity (so there
are no omissions and no duplicates beyond name collisions already in the
corpus) and as a membership characterisation. -/
theorem partition_completeness (abi : Abixml.ABI) :
    (∀ s : String, abi.type_and_function_names.1.count s =
      (abi.class_decls.map (fun cd => cd.name)).count s +
        (abi.typedef_decls.map (fun td => td.name)).count s) ∧
    (∀ s : String, s ∈ abi.type_and_function_names.1 ↔
      ((∃ cd, cd ∈ abi.class_decls ∧ cd.name = s) ∨
       (∃ td, td ∈ abi.typedef_decls ∧ td.name = s))) ∧
    (∀ s : String, abi.type_and_function_names.2.count s =
      (abi.fun_decls.map (fun fd => fd.name)).count s) ∧
    (∀ s : String, s ∈ abi.type_and_function_names.2 ↔
      ∃ fd, fd ∈ abi.fun_decls ∧ fd.name = s) := by
  refine ⟨?_, ?_, ?_, ?_⟩
  · intro s
    simp [Abixml.ABI.type_and_function_names, List.count_append]
  · intro s
    simp [Abixml.ABI.type_and_function_names, List.mem_append, List.mem_map]
  · intro s
    simp [Abixml.ABI.type_and_function_names]
  · intro s
    simp [Abixml.ABI.type_and_function_names, List.mem_map]

/-! ## src/abi/suppress.py : suppression generator (pure core) -/

namespace Suppress

open Abixml

/-- The `private_types` class-declaration part of
`suppression_for_binaries_from_header` (`src/abi/suppress.py` line 25). -/
def private_class_decls (abi : ABI) (header_type_symbols : List String) :
    List ClassDecl :=
  abi.class_decls.filter fun cd => !(header_type_symbols.contains cd.name)

/-- The `private_types` typedef part (`src/abi/suppress.py` line 26). -/
def private_typedef_decls (abi : ABI) (header_type_symbols : List String) :
    List TypedefDecl :=
  abi.typedef_decls.filter fun td => !(header_type_symbols.contains td.name)

/-- `private_funcs` (`src/abi/suppress.py` line 27). -/
def private_funcs (abi : ABI) (header_function_symbols : List String) :
    List FunctionDecl :=
  abi.fun_decls.filter fun fd => !(header_function_symbols.contains fd.name)

/-- The list `type_suppressions + func_suppressions` built by
`suppression_for_binaries_from_header` (`src/abi/suppress.py` lines 23-30). -/
def suppression_blocks (abi : ABI)
    (header_types header_functions : List ParseHeaders.Symbol) : List String :=
  let header_type_symbols := header_types.map fun ht => ht.symbol
  let header_function_symbols := header_functions.map fun hf => hf.symbol
  let type_suppressions :=
    (private_class_decls abi header_type_symbols).map
      (fun t => t.to_suppression abi.path) ++
    (private_typedef_decls abi header_type_symbols).map
      (fun t => t.to_suppression abi.path)
  let func_suppressions :=
    (private_funcs abi header_function_symbols).map
      (fun f => f.to_suppression abi.path)
  type_suppressions ++ func_suppressions

/-- Pure core of `suppression_for_binaries_from_header`
(`src/abi/suppress.py` lines 20-30): the corpus argument stands for the
result of `ABI.from_binaries(binaries)` and the three symbol lists for the
triple returned by `parse_header(header)`; the function then joins the
suppression blocks with `"\n"`. -/
def suppression_for_abi_from_header (abi : ABI)
    (header_types header_functions header_vars : List ParseHeaders.Symbol) :
    String :=
  String.intercalate "\n" (suppression_blocks abi header_types header_functions)

end Suppress

lemma string_intercalate_pair (s a b : String) :
    String.intercalate s [a, b] = a ++ s ++ b := by
  simp [String.intercalate, String.intercalate.go]

lemma not_contains_iff (l : List String) (x : String) :
    (!(l.contains x)) = true ↔ x ∉ l := by
  simp [List.contains, List.elem_iff]

lemma mem_suppression_blocks_iff (abi : Abixml.ABI)
    (header_types header_functions : List ParseHeaders.Symbol) (s : String) :
    s ∈ Suppress.suppression_blocks abi header_types header_functions ↔
      ((∃ cd, cd ∈ abi.class_decls ∧
        cd.name ∉ header_types.map (fun ht => ht.symbol) ∧
        s = cd.to_suppression abi.path) ∨
       (∃ td, td ∈ abi.typedef_decls ∧
        td.name ∉ header_types.map (fun ht => ht.symbol) ∧
        s = td.to_suppression abi.path) ∨
       (∃ fd, fd ∈ abi.fun_decls ∧
        fd.name ∉ header_functions.map (fun hf => hf.symbol) ∧
        s = fd.to_suppression abi.path)) := by
  simp only [Suppress.suppression_blocks, Suppress.private_class_decls,
    Suppress.private_typedef_decls, Suppress.private_funcs, List.mem_append,
    List.mem_map, List.mem_filter, not_contains_iff]
  constructor
  · rintro ((⟨cd, ⟨hcd, hname⟩, hs⟩ | ⟨td, ⟨htd, hname⟩, hs⟩) | ⟨fd, ⟨hfd, hname⟩, hs⟩)
    · exact Or.inl ⟨cd, hcd, hname, hs.symm⟩
    · exact Or.inr (Or.inl ⟨td, htd, hname, hs.symm⟩)
    · exact Or.inr (Or.inr ⟨fd, hfd, hname, hs.symm⟩)
  · rintro (⟨cd, hcd, hname, hs⟩ | ⟨td, htd, hname, hs⟩ | ⟨fd, hfd, hname, hs⟩)
    · exact Or.inl (Or.inl ⟨cd, ⟨hcd, hname⟩, hs.symm⟩)
    · exact Or.inl (Or.inr ⟨td, ⟨htd, hname⟩, hs.symm⟩)
    · exact Or.inr ⟨fd, ⟨hfd, hname⟩, hs.symm⟩

/-- C2: the suppression generator emits a block for exactly those corpus
class and typedef declarations whose name is not in the header type-name
list and exactly those corpus function declarations whose name is not in
the header function-name list; the output depends only on the corpus path
and its class/typedef/function declarations — never on corpus variable
declarations or the header variable list; and when every corpus
class/typedef/function name appears in the header surface the output is
the empty string. -/
theorem suppression_reconciliation (abi : Abixml.ABI)
    (header_types header_functions header_vars : List ParseHeaders.Symbol) :
    (∀ s : String,
      s ∈ Suppress.suppression_blocks abi header_types header_functions ↔
      ((∃ cd, cd ∈ abi.class_decls ∧
        cd.name ∉ header_types.map (fun ht => ht.symbol) ∧
        s = cd.to_suppression abi.path) ∨
       (∃ td, td ∈ abi.typedef_decls ∧
        td.name ∉ header_types.map (fun ht => ht.symbol) ∧
        s = td.to_suppression abi.path) ∨
       (∃ fd, fd ∈ abi.fun_decls ∧
        fd.name ∉ header_functions.map (fun hf => hf.symbol) ∧
        s = fd.to_suppression abi.path))) ∧
    (∀ (abi' : Abixml.ABI) (header_vars' : List ParseHeaders.Symbol),
      abi'.path = abi.path → abi'.class_decls = abi.class_decls →
      abi'.typedef_decls = abi.typedef_decls → abi'.fun_decls = abi.fun_decls →
      Suppress.suppression_for_abi_from_header abi' header_types
        header_functions header_vars' =
      Suppress.suppression_for_abi_from_header abi header_types
        header_functions header_vars) ∧
    ((∀ cd ∈ abi.class_decls,
        cd.name ∈ header_types.map (fun ht => ht.symbol)) →
     (∀ td ∈ abi.typedef_decls,
        td.name ∈ header_types.map (fun ht => ht.symbol)) →
     (∀ fd ∈ abi.fun_decls,
        fd.name ∈ header_functions.map (fun hf => hf.symbol)) →
     Suppress.suppression_for_abi_from_header abi header_types
       header_functions header_vars = "") := by
  refine ⟨mem_suppression_blocks_iff abi header_types header_functions, ?_, ?_⟩
  · intro abi' header_vars' hpath hclass htydef hfun
    unfold Suppress.suppression_for_abi_from_header Suppress.suppression_blocks
    unfold Suppress.private_class_decls Suppress.private_typedef_decls
      Suppress.private_funcs
    rw [hpath, hclass, htydef, hfun]
  · intro hclass htydef hfun
    unfold Suppress.suppression_for_abi_from_header Suppress.suppression_blocks
    have hc : Suppress.private_class_decls abi
        (header_types.map fun ht => ht.symbol) = [] := by
      unfold Suppress.private_class_decls
      rw [List.filter_eq_nil_iff]
      intro cd hcd
      simp [List.contains, List.elem_iff]
      exact List.mem_map.mp (hclass cd hcd)
    have ht : Suppress.private_typedef_decls abi
        (header_types.map fun ht => ht.symbol) = [] := by
      unfold Suppress.private_typedef_decls
      rw [List.filter_eq_nil_iff]
      intro td htd
      simp [List.contains, List.elem_iff]
      exact List.mem_map.mp (htydef td htd)
    have hf : Suppress.private_funcs abi
        (header_functions.map fun hf => hf.symbol) = [] := by
      unfold Suppress.private_funcs
      rw [List.filter_eq_nil_iff]
      intro fd hfd
      simp [List.contains, List.elem_iff]
      exact List.mem_map.mp (hfun fd hfd)
    simp only [hc, ht, hf, List.map_nil, List.nil_append]
    rfl

/-- Concrete corpus used by the suppression witnesses: one class `Widget`
and one function `widget_free`, nothing else. -/
def widgetAbi : Abixml.ABI :=
  ⟨"libwidget.so", [], [], [], [],
   [⟨"Widget", true, "default", none, none, none, "t1", []⟩],
   [⟨"widget_free", none, none, [], "t2"⟩], []⟩

/-- Closed witness for `suppression_reconciliation`: at the `widgetAbi`
corpus whose two names both appear in the header surface, the generator's
output is empty. -/
theorem suppression_reconciliation_witness :
    Suppress.suppression_for_abi_from_header widgetAbi
      [⟨ParseHeaders.SymbolType.STRUCTDEF, "Widget"⟩]
      [⟨ParseHeaders.SymbolType.FUNDEF, "widget_free"⟩] [] = "" ∧
    Suppress.suppression_for_abi_from_header
      ⟨"libwidget.so", [], [], [], [],
        [⟨"Widget", true, "default", none, none, none, "t1", []⟩],
        [⟨"widget_free", none, none, [], "t2"⟩],
        [⟨"hidden_var", "t1", "default", none⟩]⟩
      [⟨ParseHeaders.SymbolType.STRUCTDEF, "Widget"⟩]
      [⟨ParseHeaders.SymbolType.FUNDEF, "widget_free"⟩]
      [⟨ParseHeaders.SymbolType.EXTERNDEF, "hidden_var"⟩] =
    Suppress.suppression_for_abi_from_header widgetAbi
      [⟨ParseHeaders.SymbolType.STRUCTDEF, "Widget"⟩]
      [⟨ParseHeaders.SymbolType.FUNDEF, "widget_free"⟩] [] := by
  constructor
  · exact (suppression_reconciliation widgetAbi
      [⟨ParseHeaders.SymbolType.STRUCTDEF, "Widget"⟩]
      [⟨ParseHeaders.SymbolType.FUNDEF, "widget_free"⟩] []).2.2
      (by decide) (by decide) (by decide)
  · exact (suppression_reconciliation widgetAbi
      [⟨ParseHeaders.SymbolType.STRUCTDEF, "Widget"⟩]
      [⟨ParseHeaders.SymbolType.FUNDEF, "widget_free"⟩] []).2.1
      ⟨"libwidget.so", [], [], [], [],
        [⟨"Widget", true, "default", none, none, none, "t1", []⟩],
        [⟨"widget_free", none, none, [], "t2"⟩],
        [⟨"hidden_var", "t1", "default", none⟩]⟩
      [⟨ParseHeaders.SymbolType.EXTERNDEF, "hidden_var"⟩]
      rfl rfl rfl rfl

/-- Concrete corpus with two private class declarations `A` and `B`. -/
def twoTypesAbi : Abixml.ABI :=
  ⟨"libw.so", [], [], [], [],
   [⟨"A", true, "default", none, none, none, "t1", []⟩,
    ⟨"B", true, "default", none, none, none, "t2", []⟩],
   [], []⟩

/-- Counterexample for C9 as stated: with two suppressed types the emitted
blocks are separated by a single newline — the `name = A` line is
immediately followed by the next `[suppress_type]` header — not by a blank
line as the claim asserts. -/
theorem suppression_separator_counterexample :
    Suppress.suppression_for_abi_from_header twoTypesAbi [] [] [] =
      "[suppress_type]\n  name = A\n[suppress_type]\n  name = B" ∧
    Suppress.suppression_for_abi_from_header twoTypesAbi [] [] [] ≠
      "[suppress_type]\n  name = A\n\n[suppress_type]\n  name = B" := by
  constructor
  · rfl
  · decide

/-- C9 as amended: each suppression block is the bracketed section header
(`[suppress_type]` or `[suppress_function]`) followed by a `name = <Name>`
line indented by two spaces, and consecutive blocks are separated by a
single newline (not a blank line) in the final concatenation. -/
theorem suppression_block_format (f : Abixml.FunctionDecl)
    (cd : Abixml.ClassDecl) (td : Abixml.TypedefDecl) (file : String)
    (abi : Abixml.ABI)
    (ht hf hv : List ParseHeaders.Symbol) :
    f.to_suppression file = "[suppress_function]" ++ "\n  " ++ ("name = " ++ f.name) ∧
    cd.to_suppression file = "[suppress_type]" ++ "\n  " ++ ("name = " ++ cd.name) ∧
    td.to_suppression file = "[suppress_type]" ++ "\n  " ++ ("name = " ++ td.name) ∧
    Suppress.suppression_for_abi_from_header abi ht hf hv =
      String.intercalate "\n" (Suppress.suppression_blocks abi ht hf) := by
  refine ⟨?_, ?_, ?_, rfl⟩
  · exact string_intercalate_pair "\n  " "[suppress_function]" ("name = " ++ f.name)
  · exact string_intercalate_pair "\n  " "[suppress_type]" ("name = " ++ cd.name)
  · exact string_intercalate_pair "\n  " "[suppress_type]" ("name = " ++ td.name)

/-! ## src/abi/abixml.py : corpus parsing

The XML tree handed to the parser by `xml.etree.ElementTree` is modelled
as `XElt`; Python exceptions raised during corpus parsing are modelled as
`PyError` values in `Except`. -/

/-- An XML element: tag, attribute list and child elements. -/
inductive XElt : Type where
  | mk (tag : String) (attrib : List (String × String)) (children : List XElt)

/-- Tag of an element. -/
def XElt.tag : XElt → String
  | .mk t _ _ => t

/-- Attribute list of an element. -/
def XElt.attrib : XElt → List (String × String)
  | .mk _ a _ => a

/-- Child elements. -/
def XElt.children : XElt → List XElt
  | .mk _ _ c => c

/-- `Element.get(attr)`: the first attribute with the given name. -/
def XElt.get (x : XElt) (attr : String) : Option String :=
  (x.attrib.find? fun p => p.1 == attr).map fun p => p.2

/-- `Element.keys()`: the attribute names. -/
def XElt.keys (x : XElt) : List String :=
  x.attrib.map fun p => p.1

/-- `Element.find(tag)`: the first child with the given tag. -/
def XElt.find (x : XElt) (tag : String) : Option XElt :=
  x.children.find? fun c => c.tag == tag

/-- `Element.findall(tag)`: all children with the given tag, in order. -/
def XElt.findall (x : XElt) (tag : String) : List XElt :=
  x.children.filter fun c => c.tag == tag

/-- Python exceptions that corpus parsing can raise.
`attributeError attr keys` is the `AttributeError(attr, xelt.keys())` of
`_get_or_fail`; `attributeErrorFind node elt` is the
`AttributeError(node, xelt)` of `_find_or_fail`. -/
inductive PyError : Type where
  | attributeError (attr : String) (keys : List String)
  | attributeErrorFind (node : String) (elt : XElt)
  | valueError (msg : String)
  | typeError (msg : String)
  | runtimeError (msg : String)

/-- Left-to-right effectful list traversal, modelling a Python list
comprehension (or loop) over fallible element computations: the first
raised exception aborts the whole traversal. -/
def exceptMapList {ε α β : Type} (f : α → Except ε β) :
    List α → Except ε (List β)
  | [] => Except.ok []
  | x :: xs => do
      let y ← f x
      let ys ← exceptMapList f xs
      Except.ok (y :: ys)

/-- Decimal digit run, as read by CPython `int(str)`. -/
def pyNatOfChars (cs : List Char) : Option Nat :=
  match cs with
  | [] => none
  | _ => if cs.all Char.isDigit then
      some (cs.foldl (fun acc c => acc * 10 + (c.toNat - 48)) 0)
    else none

/-- CPython `int(str)` on the argument forms that occur in this program:
an optional sign followed by decimal digits; anything else is a
`ValueError`. -/
def pyIntOfString (s : String) : Option Int :=
  match s.toList with
  | '-' :: rest => (pyNatOfChars rest).map fun n => -(n : Int)
  | '+' :: rest => (pyNatOfChars rest).map fun n => (n : Int)
  | cs => (pyNatOfChars cs).map fun n => (n : Int)

namespace Abixml

/-- `_get_or_fail`, `src/abi/abixml.py` lines 20-24. -/
def _get_or_fail (xelt : XElt) (attr : String) : Except PyError String :=
  match xelt.get attr with
  | none => Except.error (PyError.attributeError attr xelt.keys)
  | some output => Except.ok output

/-- `_find_or_fail`, `src/abi/abixml.py` lines 26-30. -/
def _find_or_fail (xelt : XElt) (node : String) : Except PyError XElt :=
  match xelt.find node with
  | none => Except.error (PyError.attributeErrorFind node xelt)
  | some output => Except.ok output

/-- CPython `int(...)` applied to an attribute string: parse failure raises
`ValueError`. -/
def pyInt (s : String) : Except PyError Int :=
  match pyIntOfString s with
  | some n => Except.ok n
  | none => Except.error (PyError.valueError s)

/-- `ABIXML.as_children`, `src/abi/abixml.py` lines 44-49 (an ET element
is falsy exactly when it has no children, in which case `findall` is empty
anyway, so the truthiness test collapses to the `none` test). -/
def ABIXML.as_children {α : Type} (tag : String)
    (from_elt : XElt → Except PyError α)
    (parent : Option XElt) : Except PyError (List α) :=
  match parent with
  | some p => exceptMapList from_elt (p.findall tag)
  | none => Except.ok []

def Symbol.abixml_tag : String := "elf-symbol"

def VarDecl.abixml_tag : String := "var-decl"

def TypeDecl.abixml_tag : String := "type-decl"

def Parameter.abixml_tag : String := "parameter"

def FunctionDecl.abixml_tag : String := "function-decl"

def DataMember.abixml_tag : String := "data-member"

def ClassDecl.abixml_tag : String := "class-decl"

def TypedefDecl.abixml_tag : String := "typedef-decl"

/-- `Symbol.from_xmlelt`, `src/abi/abixml.py` lines 66-75
(`int(xelt.get('size', 0))`). -/
def Symbol.from_xmlelt (xelt : XElt) : Except PyError Symbol := do
  let name ← _get_or_fail xelt "name"
  let size ← match xelt.get "size" with
    | none => Except.ok (0 : Int)
    | some s => pyInt s
  let typ ← _get_or_fail xelt "type"
  let binding ← _get_or_fail xelt "binding"
  let visibility ← _get_or_fail xelt "visibility"
  let defined_raw ← _get_or_fail xelt "is-defined"
  Except.ok ⟨name, size, typ, binding, visibility, defined_raw == "yes"⟩

/-- `VarDecl.from_xmlelt`, `src/abi/abixml.py` lines 87-98 (the filepath
uses an `is not None` test). -/
def VarDecl.from_xmlelt (xelt : XElt) : Except PyError VarDecl := do
  let filepath : Option String := xelt.get "filepath"
  let name ← _get_or_fail xelt "name"
  let type_id ← _get_or_fail xelt "type-id"
  let visibility ← _get_or_fail xelt "visibility"
  Except.ok ⟨name, type_id, visibility, filepath⟩

/-- `TypeDecl.from_xmlelt`, `src/abi/abixml.py` lines 111-122 (`size-in-bits`
is parsed before the required attributes are read). -/
def TypeDecl.from_xmlelt (xelt : XElt) : Except PyError TypeDecl := do
  let size : Option Int ← match xelt.get "size-in-bits" with
    | some s => do
        let n ← pyInt s
        Except.ok (some n)
    | none => Except.ok none
  let name ← _get_or_fail xelt "name"
  let hash := xelt.get "hash"
  let id ← _get_or_fail xelt "id"
  Except.ok ⟨name, size, hash, id⟩

/-- `Parameter.from_xmlelt`, `src/abi/abixml.py` lines 133-139 (all
attributes optional; never raises). -/
def Parameter.from_xmlelt (xelt : XElt) : Except PyError Parameter :=
  Except.ok ⟨xelt.get "type-id", xelt.get "name",
    xelt.get "is_variadic" == some "yes"⟩

def Parameter.as_children (parent : Option XElt) :
    Except PyError (List Parameter) :=
  ABIXML.as_children Parameter.abixml_tag Parameter.from_xmlelt parent

/-- `FunctionDecl.from_xmlelt`, `src/abi/abixml.py` lines 155-166: the
return type id is `_get_or_fail(_find_or_fail(xelt, "return"), "type-id")`. -/
def FunctionDecl.from_xmlelt (xelt : XElt) : Except PyError FunctionDecl := do
  let filepath : Option String := xelt.get "filepath"
  let name ← _get_or_fail xelt "name"
  let mangled_name := xelt.get "mangled-name"
  let parameters ← Parameter.as_children (some xelt)
  let ret ← _find_or_fail xelt "return"
  let return_type_id ← _get_or_fail ret "type-id"
  Except.ok ⟨name, mangled_name, filepath, parameters, return_type_id⟩

/-- `DataMember.from_xmlelt`, `src/abi/abixml.py` lines 187-198: probe for
a nested `var-decl` first; if absent, a nested `function-decl` is required. -/
def DataMember.from_xmlelt (xelt : XElt) : Except PyError DataMember := do
  let decl : MemberDecl ←
    match xelt.find VarDecl.abixml_tag with
    | none => do
        let decl_xml ← _find_or_fail xelt FunctionDecl.abixml_tag
        let f ← FunctionDecl.from_xmlelt decl_xml
        Except.ok (MemberDecl.fn f)
    | some decl_xml => do
        let v ← VarDecl.from_xmlelt decl_xml
        Except.ok (MemberDecl.var v)
  let access ← _get_or_fail xelt "access"
  let layout_raw ← _get_or_fail xelt "layout-offset-in-bits"
  let layout_offset ← pyInt layout_raw
  Except.ok ⟨access, layout_offset, decl⟩

def DataMember.as_children (parent : Option XElt) :
    Except PyError (List DataMember) :=
  ABIXML.as_children DataMember.abixml_tag DataMember.from_xmlelt parent

/-- `ClassDecl.from_xmlelt`, `src/abi/abixml.py` lines 216-236: `size-in-bits`
and `filepath` use Python truthiness (an empty string counts as absent). -/
def ClassDecl.from_xmlelt (xelt : XElt) : Except PyError ClassDecl := do
  let opt_size := xelt.get "size-in-bits"
  let opt_path := xelt.get "filepath"
  let size : Option Int ← match opt_size with
    | some s =>
        if s = "" then Except.ok none
        else do
          let n ← pyInt s
          Except.ok (some n)
    | none => Except.ok none
  let filepath : Option String := match opt_path with
    | some s => if s = "" then none else some s
    | none => none
  let name ← _get_or_fail xelt "name"
  let is_struct_raw ← _get_or_fail xelt "is-struct"
  let visibility ← _get_or_fail xelt "visibility"
  let hash := xelt.get "hash"
  let id ← _get_or_fail xelt "id"
  let data_members ← DataMember.as_children (some xelt)
  Except.ok ⟨name, is_struct_raw == "yes", visibility, size, filepath, hash,
    id, data_members⟩

/-- `TypedefDecl.from_xmlelt`, `src/abi/abixml.py` lines 258-264. -/
def TypedefDecl.from_xmlelt (xelt : XElt) : Except PyError TypedefDecl := do
  let name ← _get_or_fail xelt "name"
  let member_id ← _get_or_fail xelt "type-id"
  let type_id ← _get_or_fail xelt "id"
  let filepath ← _get_or_fail xelt "filepath"
  Except.ok ⟨name, member_id, type_id, filepath⟩

def Symbol.as_children (parent : Option XElt) : Except PyError (List Symbol) :=
  ABIXML.as_children Symbol.abixml_tag Symbol.from_xmlelt parent

def TypeDecl.as_children (parent : Option XElt) :
    Except PyError (List TypeDecl) :=
  ABIXML.as_children TypeDecl.abixml_tag TypeDecl.from_xmlelt parent

def ClassDecl.as_children (parent : Option XElt) :
    Except PyError (List ClassDecl) :=
  ABIXML.as_children ClassDecl.abixml_tag ClassDecl.from_xmlelt parent

def FunctionDecl.as_children (parent : Option XElt) :
    Except PyError (List FunctionDecl) :=
  ABIXML.as_children FunctionDecl.abixml_tag FunctionDecl.from_xmlelt parent

def TypedefDecl.as_children (parent : Option XElt) :
    Except PyError (List TypedefDecl) :=
  ABIXML.as_children TypedefDecl.abixml_tag TypedefDecl.from_xmlelt parent

def VarDecl.as_children (parent : Option XElt) :
    Except PyError (List VarDecl) :=
  ABIXML.as_children VarDecl.abixml_tag VarDecl.from_xmlelt parent

/-- One iteration of the `for decls_root in root.findall("abi-instr")` loop
of `ABI.from_xml` (`src/abi/abixml.py` lines 319-324): the five extensions
in source order. -/
def parse_instr (decls_root : XElt) :
    Except PyError (List TypeDecl × List ClassDecl × List FunctionDecl ×
      List TypedefDecl × List VarDecl) := do
  let ts ← TypeDecl.as_children (some decls_root)
  let cs ← ClassDecl.as_children (some decls_root)
  let fs ← FunctionDecl.as_children (some decls_root)
  let tds ← TypedefDecl.as_children (some decls_root)
  let vs ← VarDecl.as_children (some decls_root)
  Except.ok (ts, cs, fs, tds, vs)

/-- `ABI.from_xml` after `ET.fromstring` (`src/abi/abixml.py` lines
309-334), operating on the parsed root element. -/
def ABI.from_xml_elt (root : XElt) : Except PyError ABI := do
  let path ← _get_or_fail root "path"
  let fsyms_parent ← _find_or_fail root "elf-function-symbols"
  let fun_symbols ← Symbol.as_children (some fsyms_parent)
  let var_symbols ← Symbol.as_children (root.find "elf-variable-symbols")
  let instr_decls ← exceptMapList parse_instr (root.findall "abi-instr")
  Except.ok ⟨path, fun_symbols, var_symbols,
    (instr_decls.map fun t => t.1).flatten,
    (instr_decls.map fun t => t.2.2.2.1).flatten,
    (instr_decls.map fun t => t.2.1).flatten,
    (instr_decls.map fun t => t.2.2.1).flatten,
    (instr_decls.map fun t => t.2.2.2.2).flatten⟩

/-- `ABI.from_xml`, `src/abi/abixml.py` lines 308-334, with the external
`ET.fromstring` XML reader passed as a parameter. -/
def ABI.from_xml (fromstring : String → Except PyError XElt)
    (xml_str : String) : Except PyError ABI := do
  let root ← fromstring xml_str
  ABI.from_xml_elt root

end Abixml

/-- A corpus root whose single `abi-instr` holds one `typedef-decl` with
the given attributes and children; used to exhibit hard parse failure. -/
def corpus_with_typedef (attrs : List (String × String))
    (children : List XElt) : XElt :=
  XElt.mk "abi-corpus" [("path", "libx.so")]
    [XElt.mk "elf-function-symbols" [] [],
     XElt.mk "abi-instr" [] [XElt.mk "typedef-decl" attrs children]]

lemma except_bind_ok {ε α β : Type} (a : α) (f : α → Except ε β) :
    (Except.ok a >>= f) = f a := rfl

lemma except_bind_error {ε α β : Type} (e : ε) (f : α → Except ε β) :
    ((Except.error e : Except ε α) >>= f) = Except.error e := rfl

/-- Counterexample to the error-contents half of C8: for a `class-decl`
element that lacks the required `name` attribute, the raised
`AttributeError` carries the missing attribute name and the element's
attribute keys (`AttributeError(attr, xelt.keys())`), and the element's
tag `"class-decl"` appears in neither component — the error does not
report the element's tag as the claim asserts. -/
theorem malformed_corpus_payload_counterexample :
    Abixml._get_or_fail (XElt.mk "class-decl" [("id", "c1")] []) "name" =
      Except.error (PyError.attributeError "name" ["id"]) ∧
    ("class-decl" : String) ≠ "name" ∧
    ("class-decl" : String) ∉ (["id"] : List String) := by
  refine ⟨rfl, by decide, by decide⟩

/-- C8 as amended: parsing ABI corpus text fails hard — no partial corpus
is produced — whenever a required attribute or child element is missing;
the raised error reports the offending attribute name together with the
element's attribute keys (for a missing attribute) or the sought child tag
together with the element itself (for a missing child), but not the
element's tag. -/
theorem malformed_corpus_hard_failure :
    (∀ (xelt : XElt) (attr : String), xelt.get attr = none →
      Abixml._get_or_fail xelt attr =
        Except.error (PyError.attributeError attr xelt.keys)) ∧
    (∀ (xelt : XElt) (attr v : String), xelt.get attr = some v →
      Abixml._get_or_fail xelt attr = Except.ok v) ∧
    (∀ (xelt : XElt) (node : String), xelt.find node = none →
      Abixml._find_or_fail xelt node =
        Except.error (PyError.attributeErrorFind node xelt)) ∧
    (∀ (attrs : List (String × String)) (children : List XElt),
      (attrs.find? fun p => p.1 == "name") = none →
      Abixml.ABI.from_xml_elt (corpus_with_typedef attrs children) =
        Except.error (PyError.attributeError "name" (attrs.map fun p => p.1))) := by
  refine ⟨?_, ?_, ?_, ?_⟩
  · intro xelt attr h
    unfold Abixml._get_or_fail
    rw [h]
  · intro xelt attr v h
    unfold Abixml._get_or_fail
    rw [h]
  · intro xelt node h
    unfold Abixml._find_or_fail
    rw [h]
  · intro attrs children h
    have hget : (XElt.mk "typedef-decl" attrs children).get "name" = none := by
      unfold XElt.get XElt.attrib
      rw [h]
      rfl
    simp only [corpus_with_typedef, Abixml.ABI.from_xml_elt,
      Abixml._get_or_fail, Abixml._find_or_fail, Abixml.Symbol.as_children,
      Abixml.ABIXML.as_children, exceptMapList, Abixml.parse_instr,
      Abixml.TypeDecl.as_children, Abixml.ClassDecl.as_children,
      Abixml.FunctionDecl.as_children, Abixml.TypedefDecl.as_children,
      Abixml.VarDecl.as_children, Abixml.TypedefDecl.from_xmlelt,
      Abixml.Symbol.abixml_tag, Abixml.TypeDecl.abixml_tag,
      Abixml.ClassDecl.abixml_tag, Abixml.FunctionDecl.abixml_tag,
      Abixml.TypedefDecl.abixml_tag, Abixml.VarDecl.abixml_tag,
      XElt.get, XElt.keys, XElt.find, XElt.findall, XElt.tag, XElt.attrib,
      XElt.children, hget]
    simp only [List.find?, List.filter, List.map]
    simp [except_bind_ok, except_bind_error, hget, Abixml._get_or_fail,
      XElt.get, XElt.attrib, XElt.keys, h]
    rfl

/-- Closed witness for `malformed_corpus_hard_failure`, applying it to a
`class-decl` missing `name`, a present attribute, a missing child, and a
concrete malformed corpus. -/
theorem malformed_corpus_hard_failure_witness :
    Abixml._get_or_fail (XElt.mk "class-decl" [("id", "c1")] []) "name" =
      Except.error (PyError.attributeError "name" ["id"]) ∧
    Abixml._get_or_fail (XElt.mk "class-decl" [("id", "c1")] []) "id" =
      Except.ok "c1" ∧
    Abixml._find_or_fail (XElt.mk "data-member" [] []) "function-decl" =
      Except.error (PyError.attributeErrorFind "function-decl"
        (XElt.mk "data-member" [] [])) ∧
    Abixml.ABI.from_xml_elt (corpus_with_typedef [("id", "t7")] []) =
      Except.error (PyError.attributeError "name" ["id"]) :=
  ⟨malformed_corpus_hard_failure.1 (XElt.mk "class-decl" [("id", "c1")] [])
      "name" rfl,
   malformed_corpus_hard_failure.2.1 (XElt.mk "class-decl" [("id", "c1")] [])
      "id" "c1" rfl,
   malformed_corpus_hard_failure.2.2.1 (XElt.mk "data-member" [] [])
      "function-decl" rfl,
   malformed_corpus_hard_failure.2.2.2 [("id", "t7")] [] rfl⟩

/-! ## src/abi/parse_headers.py : preprocessed-header extraction

`gcc -E` and the tree-sitter C grammar are external collaborators: the
embedding takes the preprocessed text, and a parameter
`tsparse : String → List Node` standing for the top-level syntax nodes
tree-sitter produces for a block's text.  CPython string primitives
(`split`, `startswith`, `isspace`, slicing) are modelled over the
character list so that they are kernel-computable. -/

namespace ParseHeaders

/-- `PreprocessorFlag`, `src/abi/parse_headers.py` lines 17-21. -/
inductive PreprocessorFlag : Type where
  | NEW_FILE : PreprocessorFlag
  | RETURNING_FILE : PreprocessorFlag
  | SYSTEM_FILE : PreprocessorFlag
  | EXTERN_TEXT : PreprocessorFlag
deriving DecidableEq, Repr

/-- `PreprocessorFlag(int(f))`: the enum accepts exactly the values 1-4. -/
def PreprocessorFlag.ofInt (n : Int) : Option PreprocessorFlag :=
  if n = 1 then some PreprocessorFlag.NEW_FILE
  else if n = 2 then some PreprocessorFlag.RETURNING_FILE
  else if n = 3 then some PreprocessorFlag.SYSTEM_FILE
  else if n = 4 then some PreprocessorFlag.EXTERN_TEXT
  else none

/-- A tree-sitter syntax node: its `type`, its named fields
(`child_by_field_name`) and its source `text`. -/
inductive Node : Type where
  | mk (typ : String) (fields : List (String × Node)) (text : String)

/-- Node type tag (`node.type`). -/
def Node.typ : Node → String
  | .mk t _ _ => t

/-- Node source text (`node.text`, already decoded). -/
def Node.text : Node → String
  | .mk _ _ s => s

/-- `node.child_by_field_name(name)`. -/
def Node.child_by_field_name : Node → String → Option Node
  | .mk _ fields _, name => (fields.find? fun p => p.1 == name).map fun p => p.2

/-- Python exceptions arising in header parsing: failed `assert`
statements, attribute access on `None`, and the `TypeError`/`ValueError`
of `_parse_blocks`/`_parse_file_line` on malformed marker input. -/
inductive HeaderErr : Type where
  | assertionError : HeaderErr
  | attributeError : HeaderErr
  | typeError : HeaderErr
  | valueError : HeaderErr
deriving DecidableEq, Repr

/-- CPython `text[1:-1]`. -/
def pySlice1Neg1 (s : String) : String :=
  String.mk ((s.toList.drop 1).dropLast)

/-- CPython `str.split()` (no argument): split on whitespace runs,
discarding empty fields. -/
def pySplit (s : String) : List String :=
  ((s.toList.splitOnP Char.isWhitespace).filter fun t => t ≠ []).map
    fun cs => String.mk cs

/-- CPython `str.split("\n")`. -/
def pyLines (s : String) : List String :=
  (s.toList.splitOn '\n').map fun cs => String.mk cs

/-- CPython `line.startswith("#")`. -/
def pyStartsWithHash (s : String) : Bool :=
  match s.toList with
  | [] => false
  | c :: _ => c == '#'

/-- CPython `line.isspace() or len(line) == 0`: the line carries no
source text. -/
def pyIsBlank (s : String) : Bool :=
  s.toList.all Char.isWhitespace

/-- `_parse_type_definition`, `src/abi/parse_headers.py` lines 37-60:
the two `assert` statements and the `None.text` dereference raise; the
`else` branch logs and yields no symbol. -/
def _parse_type_definition (node : Node) : Except HeaderErr (Option Symbol) :=
  match node.child_by_field_name "declarator" with
  | none => Except.error HeaderErr.assertionError
  | some declarator =>
    if declarator.typ = "function_declarator" then
      match declarator.child_by_field_name "declarator" with
      | none => Except.error HeaderErr.assertionError
      | some child_declarator =>
        if child_declarator.typ = "parenthesized_declarator" then
          Except.ok (some ⟨SymbolType.TYPEDEF, pySlice1Neg1 child_declarator.text⟩)
        else Except.error HeaderErr.assertionError
    else if declarator.typ = "type_identifier" then
      Except.ok (some ⟨SymbolType.TYPEDEF, declarator.text⟩)
    else if declarator.typ = "pointer_declarator" then
      match declarator.child_by_field_name "declarator" with
      | none => Except.error HeaderErr.attributeError
      | some inner => Except.ok (some ⟨SymbolType.TYPEDEF, inner.text⟩)
    else Except.ok none

/-- `_parse_declaration`, `src/abi/parse_headers.py` lines 63-85. -/
def _parse_declaration (node : Node) : Except HeaderErr (Option Symbol) :=
  match node.child_by_field_name "declarator" with
  | none => Except.error HeaderErr.assertionError
  | some declarator =>
    if declarator.typ = "function_declarator" then
      match declarator.child_by_field_name "declarator" with
      | none => Except.error HeaderErr.attributeError
      | some name_node =>
        if name_node.typ = "identifier" then
          Except.ok (some ⟨SymbolType.FUNDEF, name_node.text⟩)
        else Except.error HeaderErr.assertionError
    else if declarator.typ = "pointer_declarator" then
      match declarator.child_by_field_name "declarator" with
      | none => Except.error HeaderErr.attributeError
      | some name_node => Except.ok (some ⟨SymbolType.PTRDEF, name_node.text⟩)
    else if declarator.typ = "identifier" then
      Except.ok (some ⟨SymbolType.EXTERNDEF, declarator.text⟩)
    else if declarator.typ = "array_declarator" then
      match declarator.child_by_field_name "declarator" with
      | none => Except.error HeaderErr.attributeError
      | some inner => Except.ok (some ⟨SymbolType.EXTERNDEF, inner.text⟩)
    else Except.ok none

/-- `_parse_struct_specifier`, `src/abi/parse_headers.py` lines 88-92: an
anonymous struct (`name` field absent) dereferences `None.text`. -/
def _parse_struct_specifier (node : Node) : Except HeaderErr Symbol :=
  match node.child_by_field_name "name" with
  | none => Except.error HeaderErr.attributeError
  | some name_node => Except.ok ⟨SymbolType.STRUCTDEF, name_node.text⟩

/-- `_parse_enum_specifier`, `src/abi/parse_headers.py` lines 94-101: the
bare `except` turns an anonymous enum into `None`. -/
def _parse_enum_specifier (node : Node) : Except HeaderErr (Option Symbol) :=
  match node.child_by_field_name "name" with
  | none => Except.ok none
  | some name_node => Except.ok (some ⟨SymbolType.ENUMDEF, name_node.text⟩)

/-- One iteration of the cursor loop in `HeaderBlock.parse`
(`src/abi/parse_headers.py` lines 114-129): dispatch on the node type;
`";"` is passed over and an unhandled type is logged and skipped. -/
def parseTopNode (node : Node) : Except HeaderErr (Option Symbol) :=
  if node.typ = "type_definition" then _parse_type_definition node
  else if node.typ = "declaration" then _parse_declaration node
  else if node.typ = "struct_specifier" then do
    let s ← _parse_struct_specifier node
    Except.ok (some s)
  else if node.typ = "enum_specifier" then _parse_enum_specifier node
  else if node.typ = ";" then Except.ok none
  else Except.ok none

/-- `HeaderBlock`, `src/abi/parse_headers.py` lines 104-108. -/
structure HeaderBlock : Type where
  file : String
  flags : List PreprocessorFlag
  text : String
deriving DecidableEq, Repr

/-- `HeaderBlock.parse`, `src/abi/parse_headers.py` lines 110-130: run the
per-node dispatch over every top-level node of the block's parsed text and
drop the `None` entries. -/
def HeaderBlock.parse (tsparse : String → List Node) (self : HeaderBlock) :
    Except HeaderErr (List Symbol) := do
  let parsed ← exceptMapList parseTopNode (tsparse self.text)
  Except.ok (parsed.filterMap id)

/-- `_parse_file_line`, `src/abi/parse_headers.py` lines 133-136:
`_, _, filepath_quoted, *flags = line.split()` (a `ValueError` when fewer
than three fields), the quotes stripped by `[1:-1]`, and each flag parsed
with `PreprocessorFlag(int(f))`. -/
def _parse_file_line (line : String) :
    Except HeaderErr (String × List PreprocessorFlag) :=
  match pySplit line with
  | _ :: _ :: filepath_quoted :: flags => do
      let parsed_flags ← exceptMapList
        (fun f =>
          match pyIntOfString f with
          | none => Except.error HeaderErr.valueError
          | some n =>
            match PreprocessorFlag.ofInt n with
            | none => Except.error HeaderErr.valueError
            | some fl => Except.ok fl) flags
      Except.ok (pySlice1Neg1 filepath_quoted, parsed_flags)
  | _ => Except.error HeaderErr.valueError

/-- The loop body of `_parse_blocks` (`src/abi/parse_headers.py` lines
149-164), with the current header and accumulated non-blank block lines as
explicit state.  Text encountered before the first marker line stays in
the accumulator (the source does not reset it when the first header is
seen), and reaching the end with no marker seen at all is the
`HeaderBlock(*None)` `TypeError`. -/
def parseBlocksGo (lines : List String)
    (curr_header : Option (String × List PreprocessorFlag))
    (curr_block_text : List String) : Except HeaderErr (List HeaderBlock) :=
  match lines with
  | [] =>
    match curr_header with
    | none => Except.error HeaderErr.typeError
    | some (f, fl) =>
      Except.ok [⟨f, fl, String.intercalate "\n" curr_block_text⟩]
  | line :: rest =>
    if pyStartsWithHash line then
      match curr_header with
      | none => do
        let h ← _parse_file_line line
        parseBlocksGo rest (some h) curr_block_text
      | some (f, fl) => do
        let h ← _parse_file_line line
        let bs ← parseBlocksGo rest (some h) []
        Except.ok (⟨f, fl, String.intercalate "\n" curr_block_text⟩ :: bs)
    else
      if pyIsBlank line then parseBlocksGo rest curr_header curr_block_text
      else parseBlocksGo rest curr_header (curr_block_text ++ [line])

/-- `_parse_blocks`, `src/abi/parse_headers.py` lines 138-164, consumed
eagerly as `parse_header` does (an exception mid-generation discards all
previously yielded blocks). -/
def _parse_blocks (header_text : String) : Except HeaderErr (List HeaderBlock) :=
  parseBlocksGo (pyLines header_text) none []

/-- The `_separate_symbols` partition of `parse_header`
(`src/abi/parse_headers.py` lines 173-181): FUNDEF symbols to the function
list, EXTERNDEF symbols to the variable list, everything else to the type
list, in order. -/
def _separate_symbols (syms : List Symbol) :
    List Symbol × List Symbol × List Symbol :=
  (syms.filter fun s =>
      !(s.stype == SymbolType.FUNDEF) && !(s.stype == SymbolType.EXTERNDEF),
   syms.filter fun s => s.stype == SymbolType.FUNDEF,
   syms.filter fun s => s.stype == SymbolType.EXTERNDEF)

/-- The block filter of `parse_header` (`src/abi/parse_headers.py` lines
184-187): keep blocks with nonempty text whose flags do not include the
system-file flag. -/
def keep_block (b : HeaderBlock) : Bool :=
  decide (0 < b.text.length) && !(b.flags.contains PreprocessorFlag.SYSTEM_FILE)

/-- The tail of `parse_header` after `_parse_blocks`: filter the blocks,
parse each survivor and partition the symbols (appending per block in
order is the same as partitioning the concatenation). -/
def parse_header_blocks (tsparse : String → List Node)
    (bs : List HeaderBlock) :
    Except HeaderErr (List Symbol × List Symbol × List Symbol) := do
  let blocks := bs.filter keep_block
  let syms_per_block ← exceptMapList (HeaderBlock.parse tsparse) blocks
  Except.ok (_separate_symbols syms_per_block.flatten)

/-- `parse_header`, `src/abi/parse_headers.py` lines 167-192, modelled from
the preprocessed text onward (`run_preproc` invokes the external `gcc -E`;
its output is this function's argument) and with the tree-sitter C parser
passed as `tsparse`.  Returns `(type_symbols, func_symbols, var_symbols)`. -/
def parse_header_text (tsparse : String → List Node) (header_text : String) :
    Except HeaderErr (List Symbol × List Symbol × List Symbol) := do
  let bs ← _parse_blocks header_text
  parse_header_blocks tsparse bs

end ParseHeaders

/-- Concrete node for the ordinary C typedef `typedef int f(int);`: a
`type_definition` whose declarator is a `function_declarator` whose inner
declarator is the bare `identifier` `f` (not a `parenthesized_declarator`). -/
def plainFnTypedefNode : ParseHeaders.Node :=
  ParseHeaders.Node.mk "type_definition"
    [("declarator",
      ParseHeaders.Node.mk "function_declarator"
        [("declarator", ParseHeaders.Node.mk "identifier" [] "f")]
        "int f(int)")]
    "typedef int f(int);"

/-- Counterexample to C5 as stated: structural parsing does raise.  On the
node of `typedef int f(int);` the `assert child_declarator.type ==
'parenthesized_declarator'` in `_parse_type_definition` fails, so the
block's whole extraction aborts with an error instead of the declaration
being logged, skipped and extraction continuing. -/
theorem header_parse_raises_counterexample :
    ParseHeaders.parseTopNode plainFnTypedefNode =
      Except.error ParseHeaders.HeaderErr.assertionError ∧
    ParseHeaders.HeaderBlock.parse (fun t => [plainFnTypedefNode])
      ⟨"widget.h", [], "typedef int f(int);"⟩ =
      Except.error ParseHeaders.HeaderErr.assertionError := by
  constructor
  · rfl
  · rfl

lemma exceptMapList_ok_of_forall {ε α β : Type} (f : α → Except ε β)
    (l : List α) (h : ∀ a ∈ l, ∃ r, f a = Except.ok r) :
    ∃ ys, exceptMapList f l = Except.ok ys := by
  induction l with
  | nil => exact ⟨[], rfl⟩
  | cons a t ih =>
    obtain ⟨r, hr⟩ := h a (List.mem_cons_self a t)
    obtain ⟨ys, hys⟩ := ih fun b hb => h b (List.mem_cons_of_mem a hb)
    refine ⟨r :: ys, ?_⟩
    simp [exceptMapList, hr, hys, except_bind_ok]

/-- C5 as amended: a bare `";"` terminator is passed over, an unrecognized
top-level node type is logged and skipped, and an unrecognized declarator
type inside a `type_definition` or a `declaration` is logged and skipped —
none of these yield an error, and a block whose every top-level node
parses without an exception yields a symbol list; the `enum_specifier`
handler never raises.  (Recognized declarator types with unexpected inner
structure, by contrast, raise — see
`header_parse_raises_counterexample`.) -/
theorem header_parse_skip_amended :
    (∀ (fields : List (String × ParseHeaders.Node)) (text : String),
      ParseHeaders.parseTopNode (ParseHeaders.Node.mk ";" fields text) =
        Except.ok none) ∧
    (∀ n : ParseHeaders.Node,
      n.typ ∉ (["type_definition", "declaration", "struct_specifier",
        "enum_specifier", ";"] : List String) →
      ParseHeaders.parseTopNode n = Except.ok none) ∧
    (∀ n d : ParseHeaders.Node, n.typ = "type_definition" →
      n.child_by_field_name "declarator" = some d →
      d.typ ∉ (["function_declarator", "type_identifier",
        "pointer_declarator"] : List String) →
      ParseHeaders.parseTopNode n = Except.ok none) ∧
    (∀ n d : ParseHeaders.Node, n.typ = "declaration" →
      n.child_by_field_name "declarator" = some d →
      d.typ ∉ (["function_declarator", "pointer_declarator", "identifier",
        "array_declarator"] : List String) →
      ParseHeaders.parseTopNode n = Except.ok none) ∧
    (∀ n : ParseHeaders.Node, n.typ = "enum_specifier" →
      ∃ r, ParseHeaders.parseTopNode n = Except.ok r) ∧
    (∀ (tsparse : String → List ParseHeaders.Node)
       (b : ParseHeaders.HeaderBlock),
      (∀ n ∈ tsparse b.text, ∃ r, ParseHeaders.parseTopNode n = Except.ok r) →
      ∃ syms, ParseHeaders.HeaderBlock.parse tsparse b = Except.ok syms) := by
  refine ⟨?_, ?_, ?_, ?_, ?_, ?_⟩
  · intro fields text
    rfl
  · intro n hn
    simp only [List.mem_cons, List.mem_singleton, not_or] at hn
    obtain ⟨h1, h2, h3, h4, h5, _⟩ := hn
    unfold ParseHeaders.parseTopNode
    simp [h1, h2, h3, h4, h5]
  · intro n d hn hd hdt
    simp only [List.mem_cons, List.mem_singleton, not_or] at hdt
    obtain ⟨h1, h2, h3, _⟩ := hdt
    unfold ParseHeaders.parseTopNode ParseHeaders._parse_type_definition
    simp [hn, hd, h1, h2, h3]
  · intro n d hn hd hdt
    simp only [List.mem_cons, List.mem_singleton, not_or] at hdt
    obtain ⟨h1, h2, h3, h4, _⟩ := hdt
    have hne : n.typ ≠ "type_definition" := by
      rw [hn]
      decide
    unfold ParseHeaders.parseTopNode ParseHeaders._parse_declaration
    simp [hne, hn, hd, h1, h2, h3, h4]
  · intro n hn
    have hne1 : n.typ ≠ "type_definition" := by
      rw [hn]
      decide
    have hne2 : n.typ ≠ "declaration" := by
      rw [hn]
      decide
    have hne3 : n.typ ≠ "struct_specifier" := by
      rw [hn]
      decide
    unfold ParseHeaders.parseTopNode ParseHeaders._parse_enum_specifier
    simp only [hne1, if_false, hne2, hne3, hn, if_true]
    match hm : n.child_by_field_name "name" with
    | none => exact ⟨none, rfl⟩
    | some name_node => exact ⟨some ⟨ParseHeaders.SymbolType.ENUMDEF, name_node.text⟩, rfl⟩
  · intro tsparse b h
    obtain ⟨ys, hys⟩ :=
      exceptMapList_ok_of_forall ParseHeaders.parseTopNode (tsparse b.text) h
    refine ⟨ys.filterMap id, ?_⟩
    unfold ParseHeaders.HeaderBlock.parse
    simp [hys, except_bind_ok]

/-- Closed witness for `header_parse_skip_amended`: the theorem applied to
a bare terminator, a top-level comment node, a typedef and a declaration
with an unhandled declarator kind, an anonymous enum, and a block of two
benign nodes. -/
theorem header_parse_skip_amended_witness :
    ParseHeaders.parseTopNode (ParseHeaders.Node.mk ";" [] ";") =
      Except.ok none ∧
    ParseHeaders.parseTopNode (ParseHeaders.Node.mk "comment" [] "/* x */") =
      Except.ok none ∧
    ParseHeaders.parseTopNode (ParseHeaders.Node.mk "type_definition"
      [("declarator", ParseHeaders.Node.mk "parenthesized_declarator" [] "(q)")]
      "typedef int (q);") = Except.ok none ∧
    ParseHeaders.parseTopNode (ParseHeaders.Node.mk "declaration"
      [("declarator", ParseHeaders.Node.mk "init_declarator" [] "x = 3")]
      "int x = 3;") = Except.ok none ∧
    (∃ r, ParseHeaders.parseTopNode
      (ParseHeaders.Node.mk "enum_specifier" [] "enum { A };") =
        Except.ok r) ∧
    (∃ syms, ParseHeaders.HeaderBlock.parse
      (fun t => [ParseHeaders.Node.mk ";" [] ";",
                 ParseHeaders.Node.mk "comment" [] "/* x */"])
      ⟨"w.h", [], "; /* x */"⟩ = Except.ok syms) := by
  refine ⟨?_, ?_, ?_, ?_, ?_, ?_⟩
  · exact header_parse_skip_amended.1 [] ";"
  · exact header_parse_skip_amended.2.1 (ParseHeaders.Node.mk "comment" [] "/* x */")
      (by decide)
  · exact header_parse_skip_amended.2.2.1
      (ParseHeaders.Node.mk "type_definition"
        [("declarator", ParseHeaders.Node.mk "parenthesized_declarator" [] "(q)")]
        "typedef int (q);")
      (ParseHeaders.Node.mk "parenthesized_declarator" [] "(q)")
      rfl rfl (by decide)
  · exact header_parse_skip_amended.2.2.2.1
      (ParseHeaders.Node.mk "declaration"
        [("declarator", ParseHeaders.Node.mk "init_declarator" [] "x = 3")]
        "int x = 3;")
      (ParseHeaders.Node.mk "init_declarator" [] "x = 3")
      rfl rfl (by decide)
  · exact header_parse_skip_amended.2.2.2.2.1
      (ParseHeaders.Node.mk "enum_specifier" [] "enum { A };") rfl
  · exact header_parse_skip_amended.2.2.2.2.2
      (fun t => [ParseHeaders.Node.mk ";" [] ";",
                 ParseHeaders.Node.mk "comment" [] "/* x */"])
      ⟨"w.h", [], "; /* x */"⟩
      (by
        intro n hn
        simp at hn
        rcases hn with h | h
        · exact ⟨none, by rw [h]; rfl⟩
        · exact ⟨none, by rw [h]; rfl⟩)

lemma keep_block_false_of_discarded (b : ParseHeaders.HeaderBlock)
    (h : ParseHeaders.PreprocessorFlag.SYSTEM_FILE ∈ b.flags ∨ b.text = "") :
    ParseHeaders.keep_block b = false := by
  unfold ParseHeaders.keep_block
  rcases h with h | h
  · have hc : b.flags.contains ParseHeaders.PreprocessorFlag.SYSTEM_FILE = true :=
      List.elem_iff.mpr h
    rw [hc]
    simp
  · rw [h]
    simp

lemma parseBlocksGo_skip_text (ts : List String)
    (h : ∀ l ∈ ts, ParseHeaders.pyStartsWithHash l = false ∧
      ParseHeaders.pyIsBlank l = false)
    (rest : List String)
    (hdr : Option (String × List ParseHeaders.PreprocessorFlag))
    (acc : List String) :
    ParseHeaders.parseBlocksGo (ts ++ rest) hdr acc =
      ParseHeaders.parseBlocksGo rest hdr (acc ++ ts) := by
  induction ts generalizing acc with
  | nil => simp
  | cons l t ih =>
    have hl := h l (List.mem_cons_self l t)
    have hrec := ih (fun x hx => h x (List.mem_cons_of_mem l hx)) (acc ++ [l])
    simp only [List.cons_append, ParseHeaders.parseBlocksGo, hl.1, hl.2,
      Bool.false_eq_true, if_false, List.append_eq] at hrec ⊢
    rw [hrec]
    simp

lemma parseBlocksGo_finish (ts : List String)
    (h : ∀ l ∈ ts, ParseHeaders.pyStartsWithHash l = false ∧
      ParseHeaders.pyIsBlank l = false)
    (f : String) (fl : List ParseHeaders.PreprocessorFlag)
    (acc : List String) :
    ParseHeaders.parseBlocksGo ts (some (f, fl)) acc =
      Except.ok [⟨f, fl, String.intercalate "\n" (acc ++ ts)⟩] := by
  have hs := parseBlocksGo_skip_text ts h [] (some (f, fl)) acc
  rw [List.append_nil] at hs
  rw [hs]
  rfl

lemma intercalate_go_length_le (xs : List String) (acc s : String) :
    acc.length ≤ (String.intercalate.go acc s xs).length := by
  induction xs generalizing acc with
  | nil => exact Nat.le_refl _
  | cons x t ih =>
    calc acc.length ≤ (acc ++ s ++ x).length := by
          rw [String.length_append, String.length_append]
          omega
      _ ≤ (String.intercalate.go (acc ++ s ++ x) s t).length := ih (acc ++ s ++ x)

lemma intercalate_cons_length_pos (l : String) (rest : List String)
    (h : ParseHeaders.pyIsBlank l = false) :
    0 < (String.intercalate "\n" (l :: rest)).length := by
  have hne : l.toList ≠ [] := by
    intro hc
    unfold ParseHeaders.pyIsBlank at h
    rw [hc] at h
    simp at h
  have hlen : 0 < l.length := by
    have hld : l.toList.length ≠ 0 := fun hc => hne (List.eq_nil_of_length_eq_zero hc)
    have hd : l.toList.length = l.length := rfl
    omega
  calc 0 < l.length := hlen
    _ ≤ (String.intercalate.go l "\n" rest).length :=
        intercalate_go_length_le rest l "\n"
    _ = (String.intercalate "\n" (l :: rest)).length := rfl

/-- C4: blocks carrying the system-header flag, or whose text is empty
(blank lines are dropped while blocks are accumulated), contribute no
symbols — removing such a block from the block list leaves the extraction
result unchanged; and for preprocessed text consisting of a system-flagged
marker line with its block followed by a non-system marker line with its
block, the extracted surface is exactly the non-system block's
declarations. -/
theorem header_block_filtering (tsparse : String → List ParseHeaders.Node) :
    (∀ (pre post : List ParseHeaders.HeaderBlock)
       (b : ParseHeaders.HeaderBlock),
      (ParseHeaders.PreprocessorFlag.SYSTEM_FILE ∈ b.flags ∨ b.text = "") →
      ParseHeaders.parse_header_blocks tsparse (pre ++ b :: post) =
        ParseHeaders.parse_header_blocks tsparse (pre ++ post)) ∧
    (∀ (text m1 m2 : String) (t1 t2 : List String) (f1 f2 : String)
       (fl1 fl2 : List ParseHeaders.PreprocessorFlag),
      ParseHeaders.pyLines text = m1 :: (t1 ++ m2 :: t2) →
      ParseHeaders.pyStartsWithHash m1 = true →
      ParseHeaders.pyStartsWithHash m2 = true →
      ParseHeaders._parse_file_line m1 = Except.ok (f1, fl1) →
      ParseHeaders._parse_file_line m2 = Except.ok (f2, fl2) →
      ParseHeaders.PreprocessorFlag.SYSTEM_FILE ∈ fl1 →
      ParseHeaders.PreprocessorFlag.SYSTEM_FILE ∉ fl2 →
      (∀ l ∈ t1, ParseHeaders.pyStartsWithHash l = false ∧
        ParseHeaders.pyIsBlank l = false) →
      (∀ l ∈ t2, ParseHeaders.pyStartsWithHash l = false ∧
        ParseHeaders.pyIsBlank l = false) →
      t2 ≠ [] →
      ParseHeaders.parse_header_text tsparse text =
        (do
          let syms ← ParseHeaders.HeaderBlock.parse tsparse
            ⟨f2, fl2, String.intercalate "\n" t2⟩
          Except.ok (ParseHeaders._separate_symbols syms))) := by
  constructor
  · intro pre post b hb
    unfold ParseHeaders.parse_header_blocks
    rw [List.filter_append, List.filter_append, List.filter_cons,
      keep_block_false_of_discarded b hb]
    simp
  · intro text m1 m2 t1 t2 f1 f2 fl1 fl2 hlines hm1 hm2 hpf1 hpf2 hsys1 hsys2
      ht1 ht2 ht2ne
    have hblocks : ParseHeaders._parse_blocks text =
        Except.ok [⟨f1, fl1, String.intercalate "\n" t1⟩,
          ⟨f2, fl2, String.intercalate "\n" t2⟩] := by
      unfold ParseHeaders._parse_blocks
      rw [hlines]
      simp only [ParseHeaders.parseBlocksGo, hm1, if_true]
      rw [hpf1, except_bind_ok]
      rw [parseBlocksGo_skip_text t1 ht1 (m2 :: t2) (some (f1, fl1)) []]
      simp only [List.nil_append]
      simp only [ParseHeaders.parseBlocksGo, hm2, if_true]
      rw [hpf2, except_bind_ok]
      rw [parseBlocksGo_finish t2 ht2 f2 fl2 []]
      simp only [List.nil_append]
      rfl
    obtain ⟨l2, t2rest, ht2c⟩ : ∃ l2 t2rest, t2 = l2 :: t2rest := by
      cases t2 with
      | nil => exact absurd rfl ht2ne
      | cons a t => exact ⟨a, t, rfl⟩
    have hkeep1 : ParseHeaders.keep_block
        ⟨f1, fl1, String.intercalate "\n" t1⟩ = false :=
      keep_block_false_of_discarded _ (Or.inl hsys1)
    have hkeep2 : ParseHeaders.keep_block
        ⟨f2, fl2, String.intercalate "\n" t2⟩ = true := by
      have hlen : 0 < (String.intercalate "\n" t2).length := by
        rw [ht2c]
        exact intercalate_cons_length_pos l2 t2rest
          (ht2 l2 (by rw [ht2c]; exact List.mem_cons_self l2 t2rest)).2
      have hcont : fl2.contains ParseHeaders.PreprocessorFlag.SYSTEM_FILE = false := by
        cases hcontains : fl2.contains ParseHeaders.PreprocessorFlag.SYSTEM_FILE
        · rfl
        · exact absurd (List.elem_iff.mp hcontains) hsys2
      unfold ParseHeaders.keep_block
      rw [hcont]
      simp only [Bool.not_false, Bool.and_true]
      exact decide_eq_true hlen
    unfold ParseHeaders.parse_header_text
    rw [hblocks, except_bind_ok]
    unfold ParseHeaders.parse_header_blocks
    simp only [List.filter_cons, hkeep1, hkeep2, if_true, List.filter_nil,
      Bool.false_eq_true, if_false]
    cases hp : ParseHeaders.HeaderBlock.parse tsparse
        ⟨f2, fl2, String.intercalate "\n" t2⟩ with
    | error e => simp [exceptMapList, hp, except_bind_error]
    | ok syms => simp [exceptMapList, hp, except_bind_ok, List.flatten]

/-- Closed witness for `header_block_filtering`: concrete preprocessed text
with a system-header block followed by a `widget.h` block, and a concrete
discarded-block instance. -/
theorem header_block_filtering_witness :
    ParseHeaders.parse_header_blocks (fun t => [])
      ([] ++ (⟨"/usr/include/stdio.h",
        [ParseHeaders.PreprocessorFlag.SYSTEM_FILE], "int x ;"⟩ :
          ParseHeaders.HeaderBlock) :: []) =
      ParseHeaders.parse_header_blocks (fun t => []) ([] ++ []) ∧
    ParseHeaders.parse_header_text (fun t => [])
      "# 1 \"/usr/include/stdio.h\" 1 3\nint sys_thing ;\n# 4 \"widget.h\" 2\nint widget_free ;" =
      (do
        let syms ← ParseHeaders.HeaderBlock.parse (fun t => [])
          ⟨"widget.h", [ParseHeaders.PreprocessorFlag.RETURNING_FILE],
            String.intercalate "\n" ["int widget_free ;"]⟩
        Except.ok (ParseHeaders._separate_symbols syms)) := by
  constructor
  · exact (header_block_filtering (fun t => [])).1 [] []
      ⟨"/usr/include/stdio.h", [ParseHeaders.PreprocessorFlag.SYSTEM_FILE],
        "int x ;"⟩ (Or.inl (by decide))
  · exact (header_block_filtering (fun t => [])).2
      "# 1 \"/usr/include/stdio.h\" 1 3\nint sys_thing ;\n# 4 \"widget.h\" 2\nint widget_free ;"
      "# 1 \"/usr/include/stdio.h\" 1 3" "# 4 \"widget.h\" 2"
      ["int sys_thing ;"] ["int widget_free ;"]
      "/usr/include/stdio.h" "widget.h"
      [ParseHeaders.PreprocessorFlag.NEW_FILE,
        ParseHeaders.PreprocessorFlag.SYSTEM_FILE]
      [ParseHeaders.PreprocessorFlag.RETURNING_FILE]
      (by decide) (by decide) (by decide) rfl rfl
      (by decide) (by decide) (by decide) (by decide) (by decide)

/-! ## src/abi/abigail.py : abidw wrapper, and src/abi/abixml.py :
ABI.from_binaries -/

namespace Abigail

/-- A Python value passed where `abidw` expects its `bins` argument:
either an actual list of paths, or the builtin function `bin` — which is
what `ABI.from_binaries` actually passes. -/
inductive PyValue : Type where
  | builtinBin : PyValue
  | paths : List String → PyValue

/-- Outcome of a completed external process (`subprocess.run` with
captured output). -/
structure RunResult : Type where
  returncode : Nat
  stdout : String
  stderr : String

/-- The invocation that `abidw` hands to the external tool: primary
binary, added binaries, optional suppression file and extra arguments
(`_split_bins_and_dirs` and `_which_ensure` are path plumbing folded into
this description). -/
structure AbidwCall : Type where
  primary : String
  added_bins : List String
  suppression_file : Option String
  extra_args : List String

/-- The iterable unpacking `bin, *added_bins = bins` that opens `abidw`
(`src/abi/abigail.py` line 82): a `TypeError` when the argument is not
iterable, a `ValueError` when the list is empty. -/
def abidw_unpack (bins : PyValue) : Except PyError (String × List String) :=
  match bins with
  | PyValue.builtinBin =>
    Except.error (PyError.typeError
      "cannot unpack non-iterable builtin_function_or_method object")
  | PyValue.paths [] =>
    Except.error (PyError.valueError
      "not enough values to unpack (expected at least 1, got 0)")
  | PyValue.paths (b :: rest) => Except.ok (b, rest)

/-- `abidw`, `src/abi/abigail.py` lines 76-96, up to the external `run`:
the opening unpack can raise, after which the assembled invocation is
performed by the `run_tool` parameter (the external tool itself is out of
scope). -/
def abidw (run_tool : AbidwCall → RunResult) (bins : PyValue)
    (suppression_file : Option String) (extra_args : List String) :
    Except PyError RunResult := do
  let unpacked ← abidw_unpack bins
  Except.ok (run_tool ⟨unpacked.1, unpacked.2, suppression_file, extra_args⟩)

end Abigail

/-- The Python builtin `bin`, in scope inside `src/abi/abixml.py`: the call
`abidw(bin, ...)` on line 298 of `ABI.from_binaries` passes this builtin,
not the method's `bins` parameter. -/
def bin : Abigail.PyValue := Abigail.PyValue.builtinBin

/-- `ABI.from_binaries`, `src/abi/abixml.py` lines 289-306: it invokes
`abidw(bin, suppression_file=..., show_cmd=..., extra_args=...)` — with
the builtin `bin`, not `bins` — then checks the return code and parses the
tool's stdout as corpus XML. -/
def Abixml.ABI.from_binaries (run_tool : Abigail.AbidwCall → Abigail.RunResult)
    (fromstring : String → Except PyError XElt) (bins : List String)
    (suppression_file : Option String) (extra_args : List String) :
    Except PyError (Abixml.ABI × String) := do
  let result ← Abigail.abidw run_tool bin suppression_file extra_args
  if result.returncode ≠ 0 then
    Except.error (PyError.runtimeError
      ("abidw failed with the following stderr:\n" ++ result.stderr))
  else do
    let xml_str := result.stdout
    let a ← Abixml.ABI.from_xml fromstring xml_str
    Except.ok (a, xml_str)

/-- C10: `ABI.from_binaries` never forwards its `bins` parameter to the
extraction wrapper — it passes the Python builtin `bin` instead, so for
every binary list the call raises the unpacking `TypeError` before any
external invocation result is examined or any corpus XML is parsed, and
the result is independent of `bins`. -/
theorem from_binaries_passes_builtin :
    (∀ (run_tool : Abigail.AbidwCall → Abigail.RunResult)
       (fromstring : String → Except PyError XElt)
       (bins : List String) (suppression_file : Option String)
       (extra_args : List String),
      Abixml.ABI.from_binaries run_tool fromstring bins suppression_file
          extra_args =
        Except.error (PyError.typeError
          "cannot unpack non-iterable builtin_function_or_method object")) ∧
    (∀ (run_tool : Abigail.AbidwCall → Abigail.RunResult)
       (fromstring : String → Except PyError XElt)
       (bins bins' : List String) (suppression_file : Option String)
       (extra_args : List String),
      Abixml.ABI.from_binaries run_tool fromstring bins suppression_file
          extra_args =
        Abixml.ABI.from_binaries run_tool fromstring bins' suppression_file
          extra_args) := by
  constructor
  · intro run_tool fromstring bins suppression_file extra_args
    rfl
  · intro run_tool fromstring bins bins' suppression_file extra_args
    rfl

/-! ## src/abi/diff.py and the sweep loop of DiffProductCmd.cmd -/

namespace Diff

/-- `diff_specs`, `src/abi/diff.py` lines 26-75: the body builds the two
suppression texts, runs `abidiff` and prints the outcome, but contains no
`return` statement — so whatever the comparison produced (the `outcome`
parameter stands for the `(result, args)` pair of the internal `abidiff`
call), the function evaluates to Python `None`. -/
def diff_specs (outcome : Abigail.RunResult × List String) :
    Option (Abigail.RunResult × List String) :=
  none

end Diff

/-- The per-pair `TypeError` of `result, abidiff_args = diff_specs(c1, c2)`
unpacking `None`. -/
inductive SweepErr : Type where
  | typeErrorUnpack : SweepErr
deriving DecidableEq, Repr

/-- The comparison loop of `DiffProductCmd.cmd`
(`src/abi/diff_product.py` lines 90-108) up to verdict classification:
each iteration unpacks `diff_specs`'s value into `result, abidiff_args`
and classifies `result.returncode`; `runner` supplies the `abidiff`
outcome that `diff_specs` computes internally for the pair (rendering to
the output file is elided). -/
def sweep_pairs {S : Type} (runner : S → S → Abigail.RunResult × List String)
    (comparisons : List (S × S)) : Except SweepErr (List AbiDiffType) :=
  exceptMapList (fun p =>
    match Diff.diff_specs (runner p.1 p.2) with
    | none => Except.error SweepErr.typeErrorUnpack
    | some outcome => Except.ok (return_code_to_diff_type outcome.1.returncode))
    comparisons

/-- `DiffProductCmd.cmd` after environment setup: the sweep over
`cross_product_self` of the concretized specs. -/
def DiffProductCmd_cmd {S : Type}
    (runner : S → S → Abigail.RunResult × List String) (specs : List S) :
    Except SweepErr (List AbiDiffType) :=
  sweep_pairs runner (cross_product_self specs)

/-- C6 names the intended design, but the code contradicts it:
`diff_specs` has no `return` statement, so the first loop iteration of the
sweep unpacks `None` and raises `TypeError` — no pair is ever classified
or rendered, and with at least two specs (hence at least one of the
`n·(n-1)` comparisons) the whole sweep aborts on its first pair instead of
reporting the error and continuing. -/
theorem sweep_aborts_on_first_pair {S : Type}
    (runner : S → S → Abigail.RunResult × List String) :
    (∀ (s1 s2 : S) (rest : List (S × S)),
      sweep_pairs runner ((s1, s2) :: rest) =
        Except.error SweepErr.typeErrorUnpack) ∧
    (∀ specs : List S, 2 ≤ specs.length →
      DiffProductCmd_cmd runner specs =
        Except.error SweepErr.typeErrorUnpack) := by
  have hcons : ∀ (p : S × S) (rest : List (S × S)),
      sweep_pairs runner (p :: rest) =
        Except.error SweepErr.typeErrorUnpack := by
    intro p rest
    rfl
  constructor
  · intro s1 s2 rest
    exact hcons (s1, s2) rest
  · intro specs hlen
    unfold DiffProductCmd_cmd
    have hpos : 0 < (cross_product_self specs).length := by
      rw [cross_product_self_length specs]
      have h1 : 1 ≤ specs.length - 1 := by omega
      calc 0 < 2 * 1 := by omega
        _ ≤ specs.length * (specs.length - 1) :=
            Nat.mul_le_mul hlen h1
    cases hc : cross_product_self specs with
    | nil => rw [hc] at hpos; simp at hpos
    | cons p rest => exact hcons p rest

/-- Closed witness for `sweep_aborts_on_first_pair`: two concrete specs. -/
theorem sweep_aborts_on_first_pair_witness :
    DiffProductCmd_cmd (fun (x y : Nat) => (⟨0, "", ""⟩, [])) [1, 2] =
      Except.error SweepErr.typeErrorUnpack :=
  (sweep_aborts_on_first_pair (fun (x y : Nat) => (⟨0, "", ""⟩, []))).2
    [1, 2] (by decide)

end SpackAbi
